import Mathlib

/-!
# Verification of the happy-eyeballs test harness

Shallow embedding of `.evergreen/happy-eyeballs-server.py` and
`.evergreen/happy-eyeballs-client.py`.  Pure data flow (bytes read and
written, port encodings, delays) is embedded as Lean functions; the
per-connection control handler is embedded as a function from its inputs
(the control-request byte and the outcome of the two listener binds) to a
record of its observable effects; the asynchronous parts (the order of
events inside one race session, and the server's accept loop) are embedded
as event traces and a step relation.

Bytes are `Nat` values (the meaningful range is `0..255`); sleep durations
are rationals (the Python floats `1.0` and `2.0` are exactly representable).
-/

namespace HappyEyeballs

/-- The two address families raced by the harness. -/
inductive Family where
  | ipv4
  | ipv6
deriving DecidableEq, Repr

/-! ## Control codec

`on_control_connected` (server, lines 27-50) dispatches on one request byte:
`0x04` delayed IPv4, `0x06` delayed IPv6, `0xF0` readiness probe, `0xFF`
shutdown, anything else is invalid (the server logs and exits).  The byte
values written by peers appear in the source as well: the client sends its
`--delay` argument, `stop_server` sends `b'\xFF'`, `wait_for_server` sends
`b'\xF0'`. -/

/-- The four defined control requests of the protocol. -/
inductive ControlRequest where
  | delayIPv4
  | delayIPv6
  | readinessProbe
  | shutdownServer
deriving DecidableEq, Repr

/-- Result of decoding one control byte. -/
inductive DecodeResult where
  | ok (r : ControlRequest)
  | invalidRequest
deriving DecidableEq, Repr

/-- The byte each defined request is sent as (server lines 28-47;
client `--delay` values, `stop_server` line 117, `wait_for_server` line 131). -/
def encodeRequest : ControlRequest → Nat
  | .delayIPv4 => 0x04
  | .delayIPv6 => 0x06
  | .readinessProbe => 0xF0
  | .shutdownServer => 0xFF

/-- Decoding of the control byte, the `if`/`elif` chain of
`on_control_connected` (server lines 28-50). -/
def decodeRequest (b : Nat) : DecodeResult :=
  if b = 0x04 then .ok .delayIPv4
  else if b = 0x06 then .ok .delayIPv6
  else if b = 0xF0 then .ok .readinessProbe
  else if b = 0xFF then .ok .shutdownServer
  else .invalidRequest

/-- Python `n.to_bytes(2, 'big')` for a port number (server lines 66-67):
high byte then low byte.  Python raises `OverflowError` for `n ≥ 65536`;
theorems about this function carry the hypothesis `n < 65536`, under which
the high byte is exactly `n / 256`. -/
def toBytes2BE (n : Nat) : List Nat :=
  [n / 256 % 256, n % 256]

/-! ## The control-connection handler

`on_control_connected` (server lines 25-90), embedded as a function of the
request byte and of the outcomes of the two `asyncio.start_server` binds
(`some port` on success, `none` when the bind raises).  The record collects
the handler's observable effects up to the point where it returns or an
exception propagates out of it. -/

/-- Observable effects of one run of `on_control_connected`. -/
structure HandlerOutput where
  /-- Bytes written on the control connection, in order. -/
  controlBytes : List Nat
  /-- Which family was marked slow (race path only). -/
  slowFamily : Option Family
  /-- Listeners bound and never closed when the handler returns or raises.
  On the race path both stay open until session teardown; on a bind failure
  an already-bound listener is simply leaked (bound, not serving, since it
  was created with `start_serving=False`). -/
  openListeners : List Family
  /-- Whether the two `test_listen` tasks were started. -/
  sessionStarted : Bool
  /-- Whether an exception propagated out of the handler. -/
  raised : Bool
  /-- `some c` when the handler calls `exit(c)` (invalid request byte). -/
  exitCode : Option Nat
  /-- Whether the shutdown event was set. -/
  shutdownSet : Bool
deriving DecidableEq, Repr

/-- `on_control_connected req bind4 bind6`: the handler's effects given the
request byte and the results of binding the IPv4 and IPv6 test listeners.
Source order (server lines 27-78): read byte; on `0x04`/`0x06` bind IPv4
then IPv6 (a failed bind raises and the exception propagates, with no
cleanup of a listener bound earlier); on success write `0x01`, the IPv4
port and the IPv6 port, close the control connection, start both test
tasks.  On `0xF0` write `0x01` and close.  On `0xFF` close and set the
shutdown event.  On any other byte, `exit(1)`. -/
def on_control_connected (req : Nat) (bind4 bind6 : Option Nat) : HandlerOutput :=
  if req = 0x04 ∨ req = 0x06 then
    let slow : Family := if req = 0x04 then .ipv4 else .ipv6
    match bind4 with
    | none => ⟨[], some slow, [], false, true, none, false⟩
    | some p4 =>
      match bind6 with
      | none => ⟨[], some slow, [.ipv4], false, true, none, false⟩
      | some p6 =>
        ⟨1 :: (toBytes2BE p4 ++ toBytes2BE p6), some slow, [.ipv4, .ipv6],
          true, false, none, false⟩
  else if req = 0xF0 then ⟨[1], none, [], false, false, none, false⟩
  else if req = 0xFF then ⟨[], none, [], false, false, none, true⟩
  else ⟨[], none, [], false, false, some 1, false⟩

/-! ## Test-endpoint delays

`test_listen` (server lines 92-105): the task for the delayed family sleeps
2.0 seconds, the task for the other family sleeps 1.0 seconds, and only
then does the listener start serving.  The `delay` flag passed to the two
tasks is `data == b'\x04'` for IPv4 and `data == b'\x06'` for IPv6
(server lines 74-76). -/

/-- Whether the given family's `test_listen` task gets `delay=True`
(server lines 75-76). -/
def endpointDelayed (req : Nat) : Family → Bool
  | .ipv4 => req == 0x04
  | .ipv6 => req == 0x06

/-- Seconds slept by a `test_listen` task before `start_serving`
(server lines 96-100): 2.0 when delayed, else 1.0. -/
def sleepSeconds (delayed : Bool) : ℚ :=
  if delayed then 2 else 1

/-- Seconds a given family's endpoint sleeps before serving, in the session
opened by request byte `req`. -/
def endpointSleep (req : Nat) (f : Family) : ℚ :=
  sleepSeconds (endpointDelayed req f)

/-! ## The server accept loop

`control_server` (server lines 17-23) starts an `asyncio` server whose
per-connection callback is `on_control_connected`, then awaits only the
shutdown event.  `asyncio.start_server` schedules each connection's
callback as its own task and keeps accepting; nothing in `control_server`
ties accepting a new control connection to the teardown of a previous
handler.  The state counts handler/session tasks in flight. -/

/-- State of the control server process: how many control-connection handler
tasks are in flight, and whether the shutdown event has been set. -/
structure ServerState where
  activeSessions : Nat
  shutdownFlag : Bool
deriving DecidableEq, Repr

/-- Steps of the control server.  `accept`: the accept loop hands a new
connection to a fresh handler task (server line 19; there is no guard on
sessions already in flight).  `finish`: a handler task completes and its
session tears down (server lines 78-90).  `requestShutdown`: a handler sets
the shutdown event (server line 46). -/
inductive ServerStep : ServerState → ServerState → Prop where
  | accept (s : ServerState) : s.shutdownFlag = false →
      ServerStep s ⟨s.activeSessions + 1, s.shutdownFlag⟩
  | finish (s : ServerState) : 0 < s.activeSessions →
      ServerStep s ⟨s.activeSessions - 1, s.shutdownFlag⟩
  | requestShutdown (s : ServerState) :
      ServerStep s ⟨s.activeSessions, true⟩

/-- Initial state of the server process: no session, shutdown not set. -/
def serverInit : ServerState := ⟨0, false⟩

/-! ## Event traces of one race session

For the temporal claims each race session is embedded as a trace of events:
a sequential setup segment from `on_control_connected` (read the byte, bind
both listeners, write the acknowledgment and ports, close the control
connection, spawn the two `test_listen` tasks, lines 27-77), followed by an
arbitrary interleaving of the two test tasks (each sleeps, starts serving,
then awaits the connected event, lines 92-105), followed by teardown
(lines 81-82). -/

/-- Observable events of one race session. -/
inductive Event where
  | readRequest (b : Nat)
  | bindListener (f : Family) (port : Nat)
  | writeControl (bytes : List Nat)
  | closeControl
  | spawnTask (f : Family)
  | sleepFor (f : Family) (secs : ℚ)
  | startServing (f : Family)
  | awaitConnected (f : Family)
  | closeListener (f : Family)

/-- `true` exactly on control-connection writes. -/
def isControlWrite : Event → Bool
  | .writeControl _ => true
  | _ => false

/-- The sequential setup segment of a race session's trace
(server lines 27-77, success path with ports `p4`, `p6`): read the request
byte, bind IPv4 then IPv6 with `start_serving=False`, write `0x01`, the
IPv4 port bytes and the IPv6 port bytes, close the control connection,
spawn the two `test_listen` tasks. -/
def raceSetupEvents (req p4 p6 : Nat) : List Event :=
  [.readRequest req, .bindListener .ipv4 p4, .bindListener .ipv6 p6,
   .writeControl [1], .writeControl (toBytes2BE p4), .writeControl (toBytes2BE p6),
   .closeControl, .spawnTask .ipv4, .spawnTask .ipv6]

/-- The event sequence of one `test_listen` task (server lines 92-105):
sleep (2.0 if delayed else 1.0), start serving, await the connected event. -/
def testTaskEvents (f : Family) (delayed : Bool) : List Event :=
  [.sleepFor f (sleepSeconds delayed), .startServing f, .awaitConnected f]

/-- Session teardown (server lines 81-82): close both listeners. -/
def teardownEvents : List Event :=
  [.closeListener .ipv4, .closeListener .ipv6]

/-- `Interleave l r t`: `t` is an interleaving of `l` and `r`, each kept in
order — the possible schedules of two concurrently-run task traces. -/
inductive Interleave : List Event → List Event → List Event → Prop where
  | nil : Interleave [] [] []
  | left {x : Event} {l r t : List Event} :
      Interleave l r t → Interleave (x :: l) r (x :: t)
  | right {x : Event} {l r t : List Event} :
      Interleave l r t → Interleave l (x :: r) (x :: t)

/-- The complete traces of the race session opened by request byte `req`
with allocated ports `p4`, `p6`: the sequential setup, then any
interleaving of the two test tasks (IPv4 delayed iff `req` is `0x04`,
IPv6 delayed iff `req` is `0x06`, lines 75-76), then teardown. -/
def SessionTrace (req p4 p6 : Nat) (t : List Event) : Prop :=
  ∃ body, Interleave (testTaskEvents .ipv4 (req == 0x04))
      (testTaskEvents .ipv6 (req == 0x06)) body ∧
    t = raceSetupEvents req p4 p6 ++ (body ++ teardownEvents)

/-! ## The race client

`happy-eyeballs-client.py`.  `main` (lines 15-25) opens the control
connection, sends `args.delay.to_bytes()` — Python `int.to_bytes()` with
its default arguments encodes one big-endian unsigned byte and raises
`OverflowError` outside `0..255` — reads one byte, raises unless it is
`0x01`, then dials `args.ipv4` over IPv4 and `args.ipv6` over IPv6
concurrently in a `TaskGroup`.  `connect_4`/`connect_6` (lines 27-47) each
open a connection — a failure to connect raises `OSError`, which
propagates — read exactly one byte and raise unless it equals the family
tag.  Any exception in either task fails `main`. -/

/-- Python `n.to_bytes()` (defaults: length 1, big-endian, unsigned):
the byte itself for `0 ≤ n ≤ 255`, `OverflowError` otherwise. -/
def intToByte (n : Int) : Option Nat :=
  if 0 ≤ n ∧ n ≤ 255 then some n.toNat else none

/-- Observable effects of one run of client `main`, up to the point where
the two dial tasks are spawned or an exception is raised. -/
structure ClientTrace where
  /-- The client opened the control connection (line 17, unconditional). -/
  openedControl : Bool
  /-- Bytes the client sent on the control connection. -/
  sentBytes : List Nat
  /-- Number of bytes the client read from the control connection. -/
  controlBytesRead : Nat
  /-- The (IPv4, IPv6) ports dialed by the two tasks, `none` when `main`
  raised before spawning them. -/
  dialedPorts : Option (Nat × Nat)
  /-- Whether `main` raised up to this point. -/
  failed : Bool
deriving DecidableEq, Repr

/-- Client `main` (lines 15-25) given the `--delay` value, the bytes
available to read on the control connection, and the `--ipv4`/`--ipv6`
port arguments.  `control_r.read(1)` returns the first available byte, or
nothing at end of stream. -/
def clientMain (delayArg : Int) (ctrlResp : List Nat) (v4 v6 : Nat) : ClientTrace :=
  match intToByte delayArg with
  | none => ⟨true, [], 0, none, true⟩
  | some b =>
    match ctrlResp.head? with
    | none => ⟨true, [b], 0, none, true⟩
    | some a =>
      if a = 1 then ⟨true, [b], 1, some (v4, v6), false⟩
      else ⟨true, [b], 1, none, true⟩

/-- Result of one family's dial attempt against its test port. -/
inductive DialResult where
  | refused
  | eof
  | payload (b : Nat)
deriving DecidableEq, Repr

/-- Outcome of one `connect_4`/`connect_6` task. -/
inductive TaskOutcome where
  | ok
  | dialError
  | eofError
  | validationError
deriving DecidableEq, Repr

/-- One family task (client lines 27-47) with expected tag byte `tag`:
a refused connection raises `OSError` (dial error); end of stream makes
`readexactly(1)` raise; a payload byte other than `tag` raises the
validation exception; the tag byte succeeds. -/
def connectFamily (tag : Nat) : DialResult → TaskOutcome
  | .refused => .dialError
  | .eof => .eofError
  | .payload b => if b = tag then .ok else .validationError

/-- Whether a task outcome is an exception. -/
def taskRaises : TaskOutcome → Bool
  | .ok => false
  | _ => true

/-- Whether the client run fails, given the two dial results: the
`TaskGroup` in `main` (lines 23-25) fails when either task raises. -/
def clientRunFails (r4 r6 : DialResult) : Bool :=
  taskRaises (connectFamily 0x04 r4) || taskRaises (connectFamily 0x06 r6)

/-! ## Claim theorems -/

/-- C5: for a race-start request (`0x04` or `0x06`, with both listener binds
succeeding), the bytes written on the control connection are exactly `0x01`
followed by the IPv4 port and then the IPv6 port, each big-endian 16-bit;
for a readiness-probe request (`0xF0`) exactly `0x01` with no ports. -/
theorem race_ack_bytes (req p4 p6 : Nat) (b4 b6 : Option Nat)
    (h : req = 0x04 ∨ req = 0x06) (h4 : p4 < 65536) (h6 : p6 < 65536) :
    (on_control_connected req (some p4) (some p6)).controlBytes
      = [1, p4 / 256, p4 % 256, p6 / 256, p6 % 256] ∧
    (on_control_connected 0xF0 b4 b6).controlBytes = [1] := by
  have e4 : p4 / 256 % 256 = p4 / 256 := Nat.mod_eq_of_lt (by omega)
  have e6 : p6 / 256 % 256 = p6 / 256 := Nat.mod_eq_of_lt (by omega)
  constructor
  · simp [on_control_connected, if_pos h, toBytes2BE, e4, e6]
  · simp [on_control_connected]

/-- Witness for `race_ack_bytes` at request `0x04`, ports 5000 and 6000. -/
theorem race_ack_bytes_witness :
    (on_control_connected 0x04 (some 5000) (some 6000)).controlBytes
      = [1, 5000 / 256, 5000 % 256, 6000 / 256, 6000 % 256] ∧
    (on_control_connected 0xF0 (some 1) (some 2)).controlBytes = [1] :=
  race_ack_bytes 0x04 5000 6000 (some 1) (some 2) (Or.inl rfl)
    (by decide) (by decide)

/-- C6: decoding maps `0x04` to `DelayIPv4`, `0x06` to `DelayIPv6`, `0xF0`
to `ReadinessProbe` and `0xFF` to `Shutdown`; every other byte decodes to
`InvalidRequest`; encoding any defined variant and decoding the result
yields the original variant. -/
theorem control_codec_roundtrip :
    decodeRequest 0x04 = .ok .delayIPv4 ∧
    decodeRequest 0x06 = .ok .delayIPv6 ∧
    decodeRequest 0xF0 = .ok .readinessProbe ∧
    decodeRequest 0xFF = .ok .shutdownServer ∧
    (∀ b, b ≠ 0x04 → b ≠ 0x06 → b ≠ 0xF0 → b ≠ 0xFF →
      decodeRequest b = .invalidRequest) ∧
    (∀ r, decodeRequest (encodeRequest r) = .ok r) := by
  refine ⟨rfl, rfl, rfl, rfl, ?_, ?_⟩
  · intro b h1 h2 h3 h4
    simp [decodeRequest, h1, h2, h3, h4]
  · intro r
    cases r <;> rfl

/-- Witness for `control_codec_roundtrip`: the fifth byte `0x05` decodes to
`InvalidRequest`, and the round trip holds at `DelayIPv4`. -/
theorem control_codec_roundtrip_witness :
    decodeRequest 0x05 = .invalidRequest ∧
    decodeRequest (encodeRequest .delayIPv4) = .ok .delayIPv4 :=
  ⟨control_codec_roundtrip.2.2.2.2.1 0x05 (by decide) (by decide)
      (by decide) (by decide),
   control_codec_roundtrip.2.2.2.2.2 .delayIPv4⟩

/-- C9: in both race sessions (`0x04` and `0x06`) both endpoints sleep a
strictly positive duration before serving — 2.0 seconds for the delayed
family, 1.0 seconds for the other — so the delayed family's delay is
strictly greater than, and exactly double, the non-delayed one's. -/
theorem both_endpoints_sleep :
    endpointSleep 0x04 .ipv4 = 2 ∧ endpointSleep 0x04 .ipv6 = 1 ∧
    endpointSleep 0x06 .ipv6 = 2 ∧ endpointSleep 0x06 .ipv4 = 1 ∧
    0 < endpointSleep 0x04 .ipv6 ∧ 0 < endpointSleep 0x06 .ipv4 ∧
    endpointSleep 0x04 .ipv6 < endpointSleep 0x04 .ipv4 ∧
    endpointSleep 0x06 .ipv4 < endpointSleep 0x06 .ipv6 ∧
    endpointSleep 0x04 .ipv4 = 2 * endpointSleep 0x04 .ipv6 ∧
    endpointSleep 0x06 .ipv6 = 2 * endpointSleep 0x06 .ipv4 := by
  norm_num [endpointSleep, endpointDelayed, sleepSeconds]

/-- C10: the client sends its `--delay` argument verbatim as the single
control byte for every value in `0..255`; outside that range
`int.to_bytes()` raises after the control connection is opened and before
any byte is sent. -/
theorem client_sends_delay_byte (d : Int) (resp : List Nat) (v4 v6 : Nat) :
    (0 ≤ d → d ≤ 255 →
      (clientMain d resp v4 v6).sentBytes = [d.toNat] ∧
      (clientMain d resp v4 v6).openedControl = true) ∧
    (¬ (0 ≤ d ∧ d ≤ 255) →
      (clientMain d resp v4 v6).openedControl = true ∧
      (clientMain d resp v4 v6).sentBytes = [] ∧
      (clientMain d resp v4 v6).failed = true) := by
  constructor
  · intro h0 h255
    have hb : intToByte d = some d.toNat := by
      simp [intToByte, h0, h255]
    rcases hr : resp.head? with _ | a
    · simp [clientMain, hb, hr]
    · by_cases ha : a = 1 <;> simp [clientMain, hb, hr, ha]
  · intro h
    have hb : intToByte d = none := by
      simp [intToByte, h]
    simp [clientMain, hb]

/-- Witness for `client_sends_delay_byte`: delay 7 (not a race byte) is sent
verbatim; delay 300 sends nothing and fails. -/
theorem client_sends_delay_byte_witness :
    ((clientMain 7 [1] 10037 10038).sentBytes = [Int.toNat 7] ∧
      (clientMain 7 [1] 10037 10038).openedControl = true) ∧
    ((clientMain 300 [1] 10037 10038).openedControl = true ∧
      (clientMain 300 [1] 10037 10038).sentBytes = [] ∧
      (clientMain 300 [1] 10037 10038).failed = true) :=
  ⟨(client_sends_delay_byte 7 [1] 10037 10038).1 (by decide) (by decide),
   (client_sends_delay_byte 300 [1] 10037 10038).2 (by decide)⟩

/-- C1 counterexample: in the session opened by `0x04`, both endpoints get a
strictly positive delay, and the non-delayed (IPv6) endpoint's delay is not
zero — `test_listen` sleeps 1.0 seconds on the non-delayed path. -/
theorem zero_delay_for_fast_family_cex :
    (0 < endpointSleep 0x04 .ipv4 ∧ 0 < endpointSleep 0x04 .ipv6) ∧
    endpointSleep 0x04 .ipv6 ≠ 0 := by
  norm_num [endpointSleep, endpointDelayed, sleepSeconds]

/-- C1 amended: exactly one of the two endpoints is marked delayed and
sleeps the longer 2.0 seconds; the non-delayed family sleeps a strictly
positive 1.0 seconds (not zero) before serving. -/
theorem one_endpoint_extra_delay (req : Nat) (h : req = 0x04 ∨ req = 0x06) :
    endpointDelayed req .ipv4 ≠ endpointDelayed req .ipv6 ∧
    (∀ f, endpointDelayed req f = true → endpointSleep req f = 2) ∧
    (∀ f, endpointDelayed req f = false → endpointSleep req f = 1) ∧
    0 < endpointSleep req .ipv4 ∧ 0 < endpointSleep req .ipv6 := by
  rcases h with rfl | rfl <;>
    refine ⟨by decide, ?_, ?_, by norm_num [endpointSleep, endpointDelayed, sleepSeconds],
      by norm_num [endpointSleep, endpointDelayed, sleepSeconds]⟩ <;>
    · intro f hf
      cases f <;> simp_all [endpointSleep, endpointDelayed, sleepSeconds]

/-- Witness for `one_endpoint_extra_delay` at request `0x04`. -/
theorem one_endpoint_extra_delay_witness :
    endpointDelayed 0x04 .ipv4 ≠ endpointDelayed 0x04 .ipv6 ∧
    (∀ f, endpointDelayed 0x04 f = true → endpointSleep 0x04 f = 2) ∧
    (∀ f, endpointDelayed 0x04 f = false → endpointSleep 0x04 f = 1) ∧
    0 < endpointSleep 0x04 .ipv4 ∧ 0 < endpointSleep 0x04 .ipv6 :=
  one_endpoint_extra_delay 0x04 (Or.inl rfl)

/-- C2 counterexample: with the control connection offering the ack byte
followed by reported ports 4660 (`0x12 0x34`) and 22136 (`0x56 0x78`), the
client reads only the single ack byte and dials its command-line ports
10037/10038, not the reported ones. -/
theorem client_reads_ports_cex :
    (clientMain 4 [1, 18, 52, 86, 120] 10037 10038).controlBytesRead = 1 ∧
    (clientMain 4 [1, 18, 52, 86, 120] 10037 10038).dialedPorts
      = some (10037, 10038) ∧
    (clientMain 4 [1, 18, 52, 86, 120] 10037 10038).dialedPorts
      ≠ some (18 * 256 + 52, 86 * 256 + 120) := by
  decide

/-- C2 amended: after a successful ack the client reads exactly one byte
from the control connection — it never reads the reported port numbers —
and dials the ports given by its `--ipv4`/`--ipv6` command-line arguments. -/
theorem client_dials_cli_ports (d : Int) (b : Nat) (resp : List Nat)
    (v4 v6 : Nat) (hb : intToByte d = some b) (hr : resp.head? = some 1) :
    (clientMain d resp v4 v6).controlBytesRead = 1 ∧
    (clientMain d resp v4 v6).sentBytes = [b] ∧
    (clientMain d resp v4 v6).dialedPorts = some (v4, v6) ∧
    (clientMain d resp v4 v6).failed = false := by
  simp [clientMain, hb, hr]

/-- Witness for `client_dials_cli_ports`: delay 4, ack `0x01`, default
command-line ports. -/
theorem client_dials_cli_ports_witness :
    (clientMain 4 [1] 10037 10038).controlBytesRead = 1 ∧
    (clientMain 4 [1] 10037 10038).sentBytes = [4] ∧
    (clientMain 4 [1] 10037 10038).dialedPorts = some (10037, 10038) ∧
    (clientMain 4 [1] 10037 10038).failed = false :=
  client_dials_cli_ports 4 4 [1] 10037 10038 (by decide) (by decide)

/-- C3 counterexample: when the IPv4 dial is refused and the IPv6 task wins
with the correct tag, the refused dial raises `OSError`, which the
`TaskGroup` turns into a failure of the whole client run. -/
theorem dial_error_nonfatal_cex :
    connectFamily 0x04 .refused = .dialError ∧
    connectFamily 0x06 (.payload 0x06) = .ok ∧
    clientRunFails .refused (.payload 0x06) = true := by
  decide

/-- C3 amended: a connection attempt that fails to connect raises and fails
the client run, exactly like a payload byte other than the family's tag;
the run succeeds only when both families connect and return their tags. -/
theorem any_task_failure_fails_run (r4 r6 : DialResult) (b : Nat) :
    ((r4 = .refused ∨ r6 = .refused) → clientRunFails r4 r6 = true) ∧
    (b ≠ 0x04 → clientRunFails (.payload b) r6 = true) ∧
    clientRunFails (.payload 0x04) (.payload 0x06) = false := by
  refine ⟨?_, ?_, by decide⟩
  · intro h
    rcases h with rfl | rfl <;>
      simp [clientRunFails, connectFamily, taskRaises]
  · intro hb
    simp [clientRunFails, connectFamily, taskRaises, hb]

/-- Witness for `any_task_failure_fails_run`: a refused IPv4 dial fails the
run, a wrong IPv4 payload fails the run, correct tags on both succeed. -/
theorem any_task_failure_fails_run_witness :
    clientRunFails .refused (.payload 0x06) = true ∧
    clientRunFails (.payload 0x05) (.payload 0x06) = true ∧
    clientRunFails (.payload 0x04) (.payload 0x06) = false :=
  ⟨(any_task_failure_fails_run .refused (.payload 0x06) 0x05).1 (Or.inl rfl),
   (any_task_failure_fails_run (.payload 0x05) (.payload 0x06) 0x05).2.1
     (by decide),
   (any_task_failure_fails_run (.payload 0x04) (.payload 0x06) 0x05).2.2⟩

/-- C4 counterexample: from the initial server state, two `accept` steps —
the accept loop hands each incoming control connection to a fresh handler
task without awaiting the previous session's teardown — reach a state with
two sessions simultaneously active. -/
theorem single_session_cex :
    Relation.ReflTransGen ServerStep serverInit ⟨2, false⟩ ∧
    ¬ (ServerState.mk 2 false).activeSessions ≤ 1 := by
  constructor
  · have s1 : ServerStep ⟨0, false⟩ ⟨1, false⟩ := .accept ⟨0, false⟩ rfl
    have s2 : ServerStep ⟨1, false⟩ ⟨2, false⟩ := .accept ⟨1, false⟩ rfl
    exact .head s1 (.head s2 .refl)
  · decide

/-- C4 amended: the accept loop does not serialize control connections —
every number of simultaneously active race sessions is reachable, since
`control_server` only awaits the shutdown event and each connection's
handler runs as its own task. -/
theorem sessions_can_overlap (n : Nat) :
    Relation.ReflTransGen ServerStep serverInit ⟨n, false⟩ := by
  induction n with
  | zero => exact .refl
  | succ k ih => exact ih.tail (.accept ⟨k, false⟩ rfl)

/-- C7 counterexample: request `0x04` with the IPv4 bind succeeding (port
5000) and the IPv6 bind failing: no ack is written and the handler raises,
but the already-bound IPv4 listener is left open — the exception propagates
past it without any cleanup. -/
theorem bind_failure_no_partial_cex :
    (on_control_connected 0x04 (some 5000) none).controlBytes = [] ∧
    (on_control_connected 0x04 (some 5000) none).raised = true ∧
    (on_control_connected 0x04 (some 5000) none).openListeners ≠ [] := by
  decide

/-- C7 amended: on a bind failure the session fails fast with nothing
written on the control connection (closed without ack) and no test task
started, but an IPv4 listener already bound when the IPv6 bind fails stays
open (bound, not serving). -/
theorem bind_failure_fails_fast (req : Nat) (b4 b6 : Option Nat)
    (hreq : req = 0x04 ∨ req = 0x06) (hfail : b4 = none ∨ b6 = none) :
    (on_control_connected req b4 b6).controlBytes = [] ∧
    (on_control_connected req b4 b6).sessionStarted = false ∧
    (on_control_connected req b4 b6).raised = true ∧
    (b4 = none → (on_control_connected req b4 b6).openListeners = []) ∧
    (∀ p, b4 = some p → b6 = none →
      (on_control_connected req b4 b6).openListeners = [.ipv4]) := by
  rcases hfail with rfl | rfl
  · simp [on_control_connected, if_pos hreq]
  · cases b4 <;> simp [on_control_connected, if_pos hreq]

/-- Witness for `bind_failure_fails_fast`: request `0x04`, IPv4 bound on
port 4444, IPv6 bind failed. -/
theorem bind_failure_fails_fast_witness :
    (on_control_connected 0x04 (some 4444) none).controlBytes = [] ∧
    (on_control_connected 0x04 (some 4444) none).sessionStarted = false ∧
    (on_control_connected 0x04 (some 4444) none).raised = true ∧
    ((some 4444 : Option Nat) = none →
      (on_control_connected 0x04 (some 4444) none).openListeners = []) ∧
    (∀ p, (some 4444 : Option Nat) = some p → (none : Option Nat) = none →
      (on_control_connected 0x04 (some 4444) none).openListeners = [.ipv4]) :=
  bind_failure_fails_fast 0x04 (some 4444) none (Or.inl rfl) (Or.inr rfl)

/-- An element of an interleaving comes from one of the two interleaved
traces. -/
theorem interleave_mem {l r t : List Event} (h : Interleave l r t) :
    ∀ x ∈ t, x ∈ l ∨ x ∈ r := by
  induction h with
  | nil =>
    intro x hx
    simp at hx
  | left h ih =>
    intro x hx
    rcases List.mem_cons.mp hx with rfl | hx
    · exact Or.inl (List.mem_cons_self _ _)
    · rcases ih x hx with h1 | h2
      · exact Or.inl (List.mem_cons_of_mem _ h1)
      · exact Or.inr h2
  | right h ih =>
    intro x hx
    rcases List.mem_cons.mp hx with rfl | hx
    · exact Or.inr (List.mem_cons_self _ _)
    · rcases ih x hx with h1 | h2
      · exact Or.inl h1
      · exact Or.inr (List.mem_cons_of_mem _ h2)

/-- C8: every complete trace of a race session splits into the sequential
setup segment — which contains the ack write and the two port writes and no
serving event — followed by a remainder containing no control-connection
write: the acknowledgment with both ports is written immediately after
binding, before either test endpoint starts serving. -/
theorem ack_written_before_serving (req p4 p6 : Nat) (t : List Event)
    (h : SessionTrace req p4 p6 t) :
    ∃ post, t = raceSetupEvents req p4 p6 ++ post ∧
      Event.writeControl [1] ∈ raceSetupEvents req p4 p6 ∧
      Event.writeControl (toBytes2BE p4) ∈ raceSetupEvents req p4 p6 ∧
      Event.writeControl (toBytes2BE p6) ∈ raceSetupEvents req p4 p6 ∧
      (∀ f, Event.startServing f ∉ raceSetupEvents req p4 p6) ∧
      (∀ e ∈ post, isControlWrite e = false) := by
  obtain ⟨body, hint, ht⟩ := h
  refine ⟨body ++ teardownEvents, ht, ?_, ?_, ?_, ?_, ?_⟩
  · simp [raceSetupEvents]
  · simp [raceSetupEvents]
  · simp [raceSetupEvents]
  · intro f
    simp [raceSetupEvents]
  · intro e he
    rcases List.mem_append.mp he with hb | htd
    · rcases interleave_mem hint e hb with h4 | h6
      · simp [testTaskEvents] at h4
        rcases h4 with rfl | rfl | rfl <;> rfl
      · simp [testTaskEvents] at h6
        rcases h6 with rfl | rfl | rfl <;> rfl
    · simp [teardownEvents] at htd
      rcases htd with rfl | rfl <;> rfl

/-- Witness for `ack_written_before_serving`: the schedule of the `0x04`
session with ports 5000/6000 in which the whole IPv4 task runs before the
whole IPv6 task. -/
theorem ack_written_before_serving_witness :
    ∃ post,
      raceSetupEvents 0x04 5000 6000 ++
          ((testTaskEvents .ipv4 true ++ testTaskEvents .ipv6 false) ++
            teardownEvents)
        = raceSetupEvents 0x04 5000 6000 ++ post ∧
      Event.writeControl [1] ∈ raceSetupEvents 0x04 5000 6000 ∧
      Event.writeControl (toBytes2BE 5000) ∈ raceSetupEvents 0x04 5000 6000 ∧
      Event.writeControl (toBytes2BE 6000) ∈ raceSetupEvents 0x04 5000 6000 ∧
      (∀ f, Event.startServing f ∉ raceSetupEvents 0x04 5000 6000) ∧
      (∀ e ∈ post, isControlWrite e = false) := by
  exact ack_written_before_serving 0x04 5000 6000 _
    ⟨testTaskEvents .ipv4 true ++ testTaskEvents .ipv6 false,
     Interleave.left (Interleave.left (Interleave.left
       (Interleave.right (Interleave.right (Interleave.right Interleave.nil))))),
     rfl⟩

end HappyEyeballs
